import Mathlib

/-!
Shallow embedding of the inventory ledger implemented in
`2_GRUPO_04_TF_FP2_25-2.py` (the variant with typed exceptions, a
domestic/imported product hierarchy and per-product movement tracking).

Modelling conventions:
* Python `int` becomes `Int`; Python `float` costs and tax rates become `ℚ`.
* `datetime` timestamps become `Nat` clock values; `datetime.now()` becomes an
  explicit `ahora` parameter threaded into each operation that creates a
  `Movimiento`.
* The mutable singleton `SistemaInventario` becomes an explicit state value;
  each operation returns a `Resultado` together with the state as it stands at
  the moment the operation returns or raises, so "no mutation on failure" is a
  provable statement rather than an artifact of the encoding.
* A Python `Movimiento` holds a reference to its `Producto`; the only fields of
  that reference the ledger ever reads through a movement are immutable
  (`codigo`, via `m.producto.codigo` in the history filter), so the embedding
  stores the product code directly.
* The `datos_extra` dict is flattened into a record of two `Option` fields;
  Python's `not datos_extra or "k" not in datos_extra` test is exactly the
  `none` test on the corresponding field.
-/

namespace Inventario

structure Proveedor where
  nombre : String
  ruc : String
  telefono : String
deriving DecidableEq

/-- Variant tag of the closed product hierarchy: `ProductoNacional` carries a
region of origin, `ProductoImportado` carries a tax rate. -/
inductive TipoProducto where
  | nacional (region_origen : String)
  | importado (impuesto : ℚ)
deriving DecidableEq

/-- One stock-change record (`Movimiento`); `codigoProducto` is the immutable
`codigo` of the referenced product. -/
structure Movimiento where
  tipo : String
  codigoProducto : String
  cantidad : Int
  fecha : Nat
  usuario : String
deriving DecidableEq

/-- A product of the catalog (`Producto` plus its subclass data). -/
structure Producto where
  codigo : String
  nombre : String
  categoria : String
  stock_minimo : Int
  proveedor : Proveedor
  costo_unitario : ℚ
  stock_actual : Int
  movimientos : List Movimiento
  tipo : TipoProducto
deriving DecidableEq

/-- Constructor `Producto.__init__`: stock starts at 0 and the per-product
movement list starts empty. -/
def Producto.nuevo (codigo nombre categoria : String) (stock_minimo : Int)
    (proveedor : Proveedor) (costo_unitario : ℚ) (tipo : TipoProducto) : Producto :=
  { codigo := codigo, nombre := nombre, categoria := categoria,
    stock_minimo := stock_minimo, proveedor := proveedor,
    costo_unitario := costo_unitario, stock_actual := 0,
    movimientos := [], tipo := tipo }

/-- Method `Producto.actualizar_stock`: unconditionally adds `cantidad`. -/
def Producto.actualizar_stock (p : Producto) (cantidad : Int) : Producto :=
  { p with stock_actual := p.stock_actual + cantidad }

/-- Method `Producto.verificar_stock_minimo`: `stock_actual <= stock_minimo`. -/
def Producto.verificar_stock_minimo (p : Producto) : Bool :=
  decide (p.stock_actual ≤ p.stock_minimo)

/-- Method `Producto.agregar_movimiento`: appends to the per-product list. -/
def Producto.agregar_movimiento (p : Producto) (m : Movimiento) : Producto :=
  { p with movimientos := p.movimientos ++ [m] }

/-- Method `ProductoImportado.costo_con_impuesto`, presented as the
`hasattr` probe of `calcular_valor_inventario`: `some` exactly for imported
products. -/
def Producto.costo_con_impuesto (p : Producto) : Option ℚ :=
  match p.tipo with
  | .importado impuesto => some (p.costo_unitario * (1 + impuesto))
  | .nacional _ => none

/-- Static factory `Movimiento.crear_movimiento` with the current clock value
substituted for `datetime.datetime.now()`. -/
def Movimiento.crear_movimiento (tipo codigoProducto : String) (cantidad : Int)
    (usuario : String) (ahora : Nat) : Movimiento :=
  { tipo := tipo, codigoProducto := codigoProducto, cantidad := cantidad,
    fecha := ahora, usuario := usuario }

/-- The four exception classes derived from `ErrorInventario`, plus `ValueError`
raised directly by `registrar_producto`. -/
inductive ErrorInventario where
  | codigoDuplicado (msg : String)
  | productoNoEncontrado (msg : String)
  | stockInsuficiente (msg : String)
  | valueError (msg : String)
deriving DecidableEq

/-- Outcome of a ledger operation: a returned value or a raised exception. -/
inductive Resultado (α : Type) where
  | ok (a : α)
  | err (e : ErrorInventario)
deriving DecidableEq

/-- The ledger state: the code-keyed product dict (insertion-ordered, unique
keys) and the global movement log. -/
structure SistemaInventario where
  productos : List (String × Producto)
  movimientos : List Movimiento
deriving DecidableEq

/-- The state right after `SistemaInventario.__new__` first runs. -/
def sistemaInicial : SistemaInventario :=
  { productos := [], movimientos := [] }

/-- Dict lookup `self.__productos[codigo]` / containment test. -/
def buscarPorCodigo : List (String × Producto) → String → Option Producto
  | [], _ => none
  | (k, p) :: resto, c => if k = c then some p else buscarPorCodigo resto c

/-- In-place mutation of the product object stored under key `c`. -/
def reemplazarEn (l : List (String × Producto)) (c : String)
    (f : Producto → Producto) : List (String × Producto) :=
  l.map fun kv => if kv.1 = c then (kv.1, f kv.2) else kv

/-- Flattened `datos_extra` dict: `none` on a field models both a missing key
and `datos_extra` itself being `None`. -/
structure DatosExtra where
  region_origen : Option String
  impuesto : Option ℚ
deriving DecidableEq

/-- Method `SistemaInventario.registrar_producto`: duplicate check first, then
variant dispatch on `tipo_producto` with per-variant `datos_extra` checks. -/
def registrar_producto (sys : SistemaInventario) (codigo nombre categoria : String)
    (stock_minimo : Int) (proveedor : Proveedor) (costo_unitario : ℚ)
    (tipo_producto : String) (datos_extra : DatosExtra) :
    Resultado Producto × SistemaInventario :=
  if (buscarPorCodigo sys.productos codigo).isSome then
    (.err (.codigoDuplicado
      ("Error: El codigo \x27" ++ codigo ++ "\x27 ya existe en el sistema")), sys)
  else if tipo_producto = "nacional" then
    match datos_extra.region_origen with
    | none =>
        (.err (.valueError
          "Producto nacional requiere \x27region_origen\x27 en datos_extra"), sys)
    | some region =>
        let producto := Producto.nuevo codigo nombre categoria stock_minimo
          proveedor costo_unitario (.nacional region)
        (.ok producto, { sys with productos := sys.productos ++ [(codigo, producto)] })
  else if tipo_producto = "importado" then
    match datos_extra.impuesto with
    | none =>
        (.err (.valueError
          "Producto importado requiere \x27impuesto\x27 en datos_extra"), sys)
    | some impuesto =>
        let producto := Producto.nuevo codigo nombre categoria stock_minimo
          proveedor costo_unitario (.importado impuesto)
        (.ok producto, { sys with productos := sys.productos ++ [(codigo, producto)] })
  else
    (.err (.valueError
      ("Tipo de producto no válido: " ++ tipo_producto ++
        ". Use \x27nacional\x27 o \x27importado\x27")), sys)

/-- Prefix test on character lists, used to implement the substring test. -/
def empiezaCon : List Char → List Char → Bool
  | [], _ => true
  | _ :: _, [] => false
  | a :: as, b :: bs => a == b && empiezaCon as bs

/-- Occurrence test on character lists: the needle appears contiguously in the
haystack (the empty needle appears everywhere, like Python `"" in s`). -/
def apareceEn (aguja : List Char) : List Char → Bool
  | [] => aguja.isEmpty
  | b :: bs => empiezaCon aguja (b :: bs) || apareceEn aguja bs

/-- Case-insensitive substring test, Python `a.lower() in b.lower()`. -/
def contiene (valor texto : String) : Bool :=
  apareceEn valor.toLower.data texto.toLower.data

/-- Method `SistemaInventario.buscar_producto`: the loop that appends every
product matching the selected criterion is a filter over the dict values. -/
def buscar_producto (sys : SistemaInventario) (criterio valor : String) :
    List Producto :=
  (sys.productos.map Prod.snd).filter fun producto =>
    (criterio == "codigo" && contiene valor producto.codigo)
    || (criterio == "nombre" && contiene valor producto.nombre)
    || (criterio == "categoria" && contiene valor producto.categoria)

/-- Message of `ProductoNoEncontrado` as formatted by both movement methods. -/
def mensajeNoEncontrado (codigo_producto : String) : String :=
  "Error: Producto con codigo \x27" ++ codigo_producto ++ "\x27 no encontrado"

/-- Message of `StockInsuficiente`; it interpolates the product name, the
current stock and the requested quantity. -/
def mensajeStockInsuficiente (nombre : String) (stock_actual cantidad : Int) :
    String :=
  "Error: Stock insuficiente para \x27" ++ nombre ++ "\x27. Stock actual: "
    ++ toString stock_actual ++ ", Solicitado: " ++ toString cantidad

/-- Method `SistemaInventario.registrar_ingreso`: lookup, then (with no check
on `cantidad`) create the movement, append it to the global log, add `cantidad`
to the stock and append to the product's own list. -/
def registrar_ingreso (sys : SistemaInventario) (codigo_producto : String)
    (cantidad : Int) (tipo_ingreso usuario : String) (ahora : Nat) :
    Resultado Movimiento × SistemaInventario :=
  match buscarPorCodigo sys.productos codigo_producto with
  | none => (.err (.productoNoEncontrado (mensajeNoEncontrado codigo_producto)), sys)
  | some _ =>
      let movimiento := Movimiento.crear_movimiento ("ingreso_" ++ tipo_ingreso)
        codigo_producto cantidad usuario ahora
      (.ok movimiento,
        { sys with
          movimientos := sys.movimientos ++ [movimiento],
          productos := reemplazarEn sys.productos codigo_producto
            fun p => (p.actualizar_stock cantidad).agregar_movimiento movimiento })

/-- Method `SistemaInventario.registrar_salida`: lookup, availability check
`stock_actual < cantidad` before any mutation, then the same three mutations as
the inbound path with the magnitude negated by the ledger. -/
def registrar_salida (sys : SistemaInventario) (codigo_producto : String)
    (cantidad : Int) (tipo_salida usuario : String) (ahora : Nat) :
    Resultado Movimiento × SistemaInventario :=
  match buscarPorCodigo sys.productos codigo_producto with
  | none => (.err (.productoNoEncontrado (mensajeNoEncontrado codigo_producto)), sys)
  | some producto =>
      if producto.stock_actual < cantidad then
        (.err (.stockInsuficiente
          (mensajeStockInsuficiente producto.nombre producto.stock_actual cantidad)), sys)
      else
        let movimiento := Movimiento.crear_movimiento ("salida_" ++ tipo_salida)
          codigo_producto (-cantidad) usuario ahora
        (.ok movimiento,
          { sys with
            movimientos := sys.movimientos ++ [movimiento],
            productos := reemplazarEn sys.productos codigo_producto
              fun p => (p.actualizar_stock (-cantidad)).agregar_movimiento movimiento })

/-- Value of one printed row of `calcular_valor_inventario`: the `hasattr`
probe picks the tax-inclusive cost for imported products. -/
def valorFila (producto : Producto) : ℚ :=
  let costo_unit :=
    match producto.costo_con_impuesto with
    | some c => c
    | none => producto.costo_unitario
  (producto.stock_actual : ℚ) * costo_unit

/-- Method `SistemaInventario.calcular_valor_inventario`: the rows printed per
product in dict order and the running total accumulated by the loop. -/
def calcular_valor_inventario (sys : SistemaInventario) :
    List (String × ℚ) × ℚ :=
  (sys.productos.map fun kv => (kv.2.nombre, valorFila kv.2),
   sys.productos.foldl (fun acc kv => acc + valorFila kv.2) 0)

/-- Method `SistemaInventario.obtener_historial_movimientos`: three successive
optional filters; note `if codigo_producto:` is a Python truthiness test, so a
supplied empty string behaves like `None`, while the `datetime` bounds are
always truthy when present. -/
def obtener_historial_movimientos (sys : SistemaInventario)
    (codigo_producto : Option String) (fecha_inicio fecha_fin : Option Nat) :
    List Movimiento :=
  let paso0 := sys.movimientos
  let paso1 :=
    match codigo_producto with
    | some c => if c = "" then paso0 else paso0.filter fun m => m.codigoProducto == c
    | none => paso0
  let paso2 :=
    match fecha_inicio with
    | some f => paso1.filter fun m => decide (f ≤ m.fecha)
    | none => paso1
  match fecha_fin with
  | some f => paso2.filter fun m => decide (m.fecha ≤ f)
  | none => paso2

/-- Reachability of a ledger state from the fresh singleton by any sequence of
registration, inbound and outbound calls with arbitrary integer quantities. -/
inductive Alcanzable : SistemaInventario → Prop where
  | inicial : Alcanzable sistemaInicial
  | registrar (s : SistemaInventario) (codigo nombre categoria : String)
      (stock_minimo : Int) (proveedor : Proveedor) (costo_unitario : ℚ)
      (tipo_producto : String) (datos_extra : DatosExtra) :
      Alcanzable s →
      Alcanzable (registrar_producto s codigo nombre categoria stock_minimo
        proveedor costo_unitario tipo_producto datos_extra).2
  | ingreso (s : SistemaInventario) (codigo : String) (cantidad : Int)
      (tipo usuario : String) (ahora : Nat) :
      Alcanzable s →
      Alcanzable (registrar_ingreso s codigo cantidad tipo usuario ahora).2
  | salida (s : SistemaInventario) (codigo : String) (cantidad : Int)
      (tipo usuario : String) (ahora : Nat) :
      Alcanzable s →
      Alcanzable (registrar_salida s codigo cantidad tipo usuario ahora).2

/-- Reachability restricted to nonnegative inbound quantities (outbound
quantities stay arbitrary). -/
inductive AlcanzableIngresosNoNeg : SistemaInventario → Prop where
  | inicial : AlcanzableIngresosNoNeg sistemaInicial
  | registrar (s : SistemaInventario) (codigo nombre categoria : String)
      (stock_minimo : Int) (proveedor : Proveedor) (costo_unitario : ℚ)
      (tipo_producto : String) (datos_extra : DatosExtra) :
      AlcanzableIngresosNoNeg s →
      AlcanzableIngresosNoNeg (registrar_producto s codigo nombre categoria
        stock_minimo proveedor costo_unitario tipo_producto datos_extra).2
  | ingreso (s : SistemaInventario) (codigo : String) (cantidad : Int)
      (tipo usuario : String) (ahora : Nat) :
      0 ≤ cantidad →
      AlcanzableIngresosNoNeg s →
      AlcanzableIngresosNoNeg (registrar_ingreso s codigo cantidad tipo usuario ahora).2
  | salida (s : SistemaInventario) (codigo : String) (cantidad : Int)
      (tipo usuario : String) (ahora : Nat) :
      AlcanzableIngresosNoNeg s →
      AlcanzableIngresosNoNeg (registrar_salida s codigo cantidad tipo usuario ahora).2

/-- Valuation of one product as the spec sentence words it: tax-inclusive unit
cost times stock for imported products, plain unit cost times stock otherwise.
Written from the spec for comparison with `calcular_valor_inventario`. -/
def valorSegunSpec (p : Producto) : ℚ :=
  match p.tipo with
  | .importado impuesto => p.costo_unitario * (1 + impuesto) * (p.stock_actual : ℚ)
  | .nacional _ => p.costo_unitario * (p.stock_actual : ℚ)

/-- Movement history as the spec sentence words it: one pass over the log
keeping exactly the movements that satisfy every supplied filter, inclusive at
both time bounds. Written from the spec for comparison with
`obtener_historial_movimientos`. -/
def historialSegunSpec (sys : SistemaInventario) (codigo_producto : Option String)
    (fecha_inicio fecha_fin : Option Nat) : List Movimiento :=
  sys.movimientos.filter fun m =>
    (match codigo_producto with
     | some c => m.codigoProducto == c
     | none => true)
    && (match fecha_inicio with
        | some f => decide (f ≤ m.fecha)
        | none => true)
    && (match fecha_fin with
        | some f => decide (m.fecha ≤ f)
        | none => true)

/-- Concrete supplier used by the concrete ledger states below. -/
def provPrueba : Proveedor :=
  { nombre := "Aceros Peru", ruc := "00000000000", telefono := "999999999" }

/-- Concrete `datos_extra` for a domestic registration. -/
def datosNacionalLima : DatosExtra :=
  { region_origen := some "Lima", impuesto := none }

/-- Concrete `datos_extra` for an imported registration. -/
def datosImportado18 : DatosExtra :=
  { region_origen := none, impuesto := some (18 / 100) }

/-- The product obtained by registering code `A` as a domestic product. -/
def prodA : Producto :=
  Producto.nuevo "A" "Varilla" "Materiales" 2 provPrueba 5 (.nacional "Lima")

/-- Ledger holding exactly the domestic product `A` with stock 0. -/
def sysConA : SistemaInventario :=
  (registrar_producto sistemaInicial "A" "Varilla" "Materiales" 2 provPrueba 5
    "nacional" datosNacionalLima).2

/-- The movement created by the inbound of 5 units of `A` at time 3. -/
def movIng5 : Movimiento :=
  Movimiento.crear_movimiento "ingreso_compra" "A" 5 "Sistema" 3

/-- Ledger `sysConA` after an inbound of 5 units of `A`: stock 5, one logged
movement. -/
def sysConA5 : SistemaInventario :=
  (registrar_ingreso sysConA "A" 5 "compra" "Sistema" 3).2

/-- Ledger reached from `sysConA` by an inbound with quantity `-1`. -/
def sysStockNegativo : SistemaInventario :=
  (registrar_ingreso sysConA "A" (-1) "compra" "Sistema" 3).2

/-- The state of product `A` inside `sysConA5`: stock 5, one movement. -/
def prodA5 : Producto :=
  (prodA.actualizar_stock 5).agregar_movimiento movIng5

/-!
Helper lemmas about the dict operations, filters and folds, shared by the
claim theorems below.
-/

theorem buscarPorCodigo_reemplazarEn (l : List (String × Producto)) (k c : String)
    (f : Producto → Producto) :
    buscarPorCodigo (reemplazarEn l k f) c =
      if c = k then (buscarPorCodigo l c).map f else buscarPorCodigo l c := by
  induction l with
  | nil => simp [reemplazarEn, buscarPorCodigo]
  | cons kv resto ih =>
    obtain ⟨k2, p⟩ := kv
    have hcab : reemplazarEn ((k2, p) :: resto) k f
        = (if k2 = k then (k2, f p) else (k2, p)) :: reemplazarEn resto k f := rfl
    rw [hcab]
    by_cases hkk : k2 = k
    · rw [if_pos hkk]
      subst hkk
      by_cases hck : c = k2
      · subst hck
        simp [buscarPorCodigo, ih]
      · have hkc : ¬ k2 = c := fun h => hck h.symm
        simp [buscarPorCodigo, hck, hkc, ih]
    · rw [if_neg hkk]
      by_cases hck : c = k2
      · subst hck
        simp [buscarPorCodigo, hkk]
      · have hkc : ¬ k2 = c := fun h => hck h.symm
        simp [buscarPorCodigo, hkk, hck, hkc, ih]

theorem buscarPorCodigo_append_ausente (l1 l2 : List (String × Producto))
    (c : String) (h : buscarPorCodigo l1 c = none) :
    buscarPorCodigo (l1 ++ l2) c = buscarPorCodigo l2 c := by
  induction l1 with
  | nil => simp [buscarPorCodigo]
  | cons kv resto ih =>
    obtain ⟨k2, p⟩ := kv
    by_cases hk : k2 = c <;> simp_all [buscarPorCodigo]

theorem buscarPorCodigo_append_cases (l1 l2 : List (String × Producto))
    (c : String) (p : Producto) (h : buscarPorCodigo (l1 ++ l2) c = some p) :
    buscarPorCodigo l1 c = some p ∨ buscarPorCodigo l2 c = some p := by
  induction l1 with
  | nil => right; simpa [buscarPorCodigo] using h
  | cons kv resto ih =>
    obtain ⟨k2, q⟩ := kv
    by_cases hk : k2 = c
    · left; simp_all [buscarPorCodigo]
    · simp only [List.cons_append, buscarPorCodigo, hk, if_neg] at h ⊢
      exact ih h

theorem buscarPorCodigo_singleton (k c : String) (q p : Producto)
    (h : buscarPorCodigo [(k, q)] c = some p) : p = q := by
  by_cases hk : k = c
  · simp [buscarPorCodigo, hk] at h
    exact h.symm
  · simp [buscarPorCodigo, hk] at h

theorem filtrar_filtrar {α : Type} (p q : α → Bool) (l : List α) :
    (l.filter p).filter q = l.filter fun a => p a && q a := by
  induction l with
  | nil => rfl
  | cons a resto ih =>
    by_cases hp : p a <;> by_cases hq : q a <;>
      simp [List.filter_cons, hp, hq, ih]

theorem foldl_suma (l : List (String × Producto)) (a : ℚ) :
    l.foldl (fun acc kv => acc + valorFila kv.2) a
      = a + (l.map fun kv => valorFila kv.2).sum := by
  induction l generalizing a with
  | nil => simp
  | cons kv resto ih => simp [List.foldl_cons, ih, add_assoc]

/-- C7: `verificar_stock_minimo` is true exactly when the current stock is at
or below the minimum, so the boundary `stock_actual = stock_minimo` counts as
low. -/
theorem verificar_stock_minimo_correcto (p : Producto) :
    p.verificar_stock_minimo = true ↔ p.stock_actual ≤ p.stock_minimo := by
  simp [Producto.verificar_stock_minimo]

/-- C10: `buscar_producto` with a criterion other than `codigo`, `nombre` or
`categoria` matches no product and returns the empty list, whatever the
catalog holds. -/
theorem buscar_producto_criterio_desconocido (sys : SistemaInventario)
    (criterio valor : String) (h1 : criterio ≠ "codigo") (h2 : criterio ≠ "nombre")
    (h3 : criterio ≠ "categoria") :
    buscar_producto sys criterio valor = [] := by
  unfold buscar_producto
  rw [List.filter_eq_nil_iff]
  intro p hp
  simp [h1, h2, h3]

/-- Witness for C10 at a concrete unknown criterion. -/
theorem buscar_producto_criterio_desconocido_witness :
    buscar_producto sysConA "proveedor" "x" = [] :=
  buscar_producto_criterio_desconocido sysConA "proveedor" "x"
    (by decide) (by decide) (by decide)

/-- C2: an outbound request exceeding the current stock raises
`StockInsuficiente` whose message interpolates the current stock and the
requested quantity, and returns with the ledger state exactly as it was: no
movement was logged anywhere and no stock changed. -/
theorem registrar_salida_stock_insuficiente (sys : SistemaInventario) (c : String)
    (cantidad : Int) (tipo usuario : String) (ahora : Nat) (p : Producto)
    (hfind : buscarPorCodigo sys.productos c = some p)
    (hlt : p.stock_actual < cantidad) :
    registrar_salida sys c cantidad tipo usuario ahora
      = (.err (.stockInsuficiente
          (mensajeStockInsuficiente p.nombre p.stock_actual cantidad)), sys) := by
  unfold registrar_salida
  simp only [hfind]
  rw [if_pos hlt]

/-- Witness for C2: requesting 1 unit of `A` while its stock is 0. -/
theorem registrar_salida_stock_insuficiente_witness :
    registrar_salida sysConA "A" 1 "venta" "Sistema" 4
      = (.err (.stockInsuficiente (mensajeStockInsuficiente "Varilla" 0 1)), sysConA) :=
  registrar_salida_stock_insuficiente sysConA "A" 1 "venta" "Sistema" 4 prodA
    (by decide) (by decide)

/-- C4: a successful inbound of `q > 0` on a registered product returns the
created movement with quantity `+q`, increases that product's stock by exactly
`q`, extends the movement history filtered to that code by exactly that one
movement, and leaves every other product's entry untouched. -/
theorem registrar_ingreso_correcto (sys : SistemaInventario) (c : String)
    (cantidad : Int) (tipo usuario : String) (ahora : Nat) (p : Producto)
    (hfind : buscarPorCodigo sys.productos c = some p) (hpos : 0 < cantidad) :
    (registrar_ingreso sys c cantidad tipo usuario ahora).1
        = .ok (Movimiento.crear_movimiento ("ingreso_" ++ tipo) c cantidad usuario ahora)
    ∧ (Movimiento.crear_movimiento ("ingreso_" ++ tipo) c cantidad usuario ahora).cantidad
        = cantidad
    ∧ (buscarPorCodigo (registrar_ingreso sys c cantidad tipo usuario ahora).2.productos c).map
        Producto.stock_actual = some (p.stock_actual + cantidad)
    ∧ obtener_historial_movimientos (registrar_ingreso sys c cantidad tipo usuario ahora).2
          (some c) none none
        = obtener_historial_movimientos sys (some c) none none
            ++ [Movimiento.crear_movimiento ("ingreso_" ++ tipo) c cantidad usuario ahora]
    ∧ ∀ c2 : String, c2 ≠ c →
        buscarPorCodigo (registrar_ingreso sys c cantidad tipo usuario ahora).2.productos c2
          = buscarPorCodigo sys.productos c2 := by
  have hr : registrar_ingreso sys c cantidad tipo usuario ahora
      = (.ok (Movimiento.crear_movimiento ("ingreso_" ++ tipo) c cantidad usuario ahora),
         { sys with
           movimientos := sys.movimientos
             ++ [Movimiento.crear_movimiento ("ingreso_" ++ tipo) c cantidad usuario ahora],
           productos := reemplazarEn sys.productos c
             fun q => (q.actualizar_stock cantidad).agregar_movimiento
               (Movimiento.crear_movimiento ("ingreso_" ++ tipo) c cantidad usuario ahora) }) := by
    unfold registrar_ingreso
    rw [hfind]
  refine ⟨by simp only [hr], rfl, ?_, ?_, ?_⟩
  · simp only [hr]
    simp [buscarPorCodigo_reemplazarEn, hfind, Producto.actualizar_stock,
      Producto.agregar_movimiento]
  · simp only [hr]
    unfold obtener_historial_movimientos
    by_cases hc : c = ""
    · simp [hc]
    · simp [hc, List.filter_append, Movimiento.crear_movimiento]
  · intro c2 hc2
    simp only [hr]
    rw [buscarPorCodigo_reemplazarEn, if_neg hc2]

/-- Witness for C4: the inbound of 5 units of `A` leaves stock 5. -/
theorem registrar_ingreso_correcto_witness :
    (buscarPorCodigo sysConA5.productos "A").map Producto.stock_actual = some 5 :=
  (registrar_ingreso_correcto sysConA "A" 5 "compra" "Sistema" 3 prodA
    (by decide) (by decide)).2.2.1

/-- C5: a successful outbound of `0 < q ≤ stock` returns the movement the
ledger created with the negated magnitude `-q`, appends exactly that movement
to the global log, and decreases the product's stock by exactly `q`. -/
theorem registrar_salida_correcta (sys : SistemaInventario) (c : String)
    (cantidad : Int) (tipo usuario : String) (ahora : Nat) (p : Producto)
    (hfind : buscarPorCodigo sys.productos c = some p) (hpos : 0 < cantidad)
    (hle : cantidad ≤ p.stock_actual) :
    (registrar_salida sys c cantidad tipo usuario ahora).1
        = .ok (Movimiento.crear_movimiento ("salida_" ++ tipo) c (-cantidad) usuario ahora)
    ∧ (Movimiento.crear_movimiento ("salida_" ++ tipo) c (-cantidad) usuario ahora).cantidad
        = -cantidad
    ∧ (registrar_salida sys c cantidad tipo usuario ahora).2.movimientos
        = sys.movimientos
            ++ [Movimiento.crear_movimiento ("salida_" ++ tipo) c (-cantidad) usuario ahora]
    ∧ (buscarPorCodigo (registrar_salida sys c cantidad tipo usuario ahora).2.productos c).map
        Producto.stock_actual = some (p.stock_actual - cantidad) := by
  have hnlt : ¬ p.stock_actual < cantidad := not_lt.mpr hle
  have hr : registrar_salida sys c cantidad tipo usuario ahora
      = (.ok (Movimiento.crear_movimiento ("salida_" ++ tipo) c (-cantidad) usuario ahora),
         { sys with
           movimientos := sys.movimientos
             ++ [Movimiento.crear_movimiento ("salida_" ++ tipo) c (-cantidad) usuario ahora],
           productos := reemplazarEn sys.productos c
             fun q => (q.actualizar_stock (-cantidad)).agregar_movimiento
               (Movimiento.crear_movimiento ("salida_" ++ tipo) c (-cantidad) usuario ahora) }) := by
    unfold registrar_salida
    simp only [hfind]
    rw [if_neg hnlt]
  refine ⟨by simp only [hr], rfl, by simp only [hr], ?_⟩
  simp only [hr]
  simp [buscarPorCodigo_reemplazarEn, hfind, Producto.actualizar_stock,
    Producto.agregar_movimiento, sub_eq_add_neg]

/-- Witness for C5: an outbound of 2 units of `A` from stock 5. -/
theorem registrar_salida_correcta_witness :
    (registrar_salida sysConA5 "A" 2 "venta" "Sistema" 9).1
      = .ok (Movimiento.crear_movimiento "salida_venta" "A" (-2) "Sistema" 9) :=
  (registrar_salida_correcta sysConA5 "A" 2 "venta" "Sistema" 9 prodA5
    (by decide) (by decide) (by decide)).1

/-- C3 counterexample: `registrar_ingreso` performs no quantity validation, so
an inbound of `-3` on the registered product `A` succeeds instead of failing
with an invalid-input error, appends a movement to the global log, and drives
the stock to `-3`. -/
theorem registrar_ingreso_acepta_no_positivos_cex :
    (registrar_ingreso sysConA "A" (-3) "compra" "Sistema" 4).1
        = .ok (Movimiento.crear_movimiento "ingreso_compra" "A" (-3) "Sistema" 4)
    ∧ (buscarPorCodigo (registrar_ingreso sysConA "A" (-3) "compra" "Sistema" 4).2.productos
        "A").map Producto.stock_actual = some (-3)
    ∧ (registrar_ingreso sysConA "A" (-3) "compra" "Sistema" 4).2.movimientos.length
        = sysConA.movimientos.length + 1 := by
  decide

/-- C3 amended: `registrar_ingreso` applies no check on the quantity: for every
registered product and every integer quantity, including zero and negative
ones, it succeeds, appends exactly one movement carrying that quantity, and
changes the product's stock by exactly that quantity. -/
theorem registrar_ingreso_sin_validacion (sys : SistemaInventario) (c : String)
    (cantidad : Int) (tipo usuario : String) (ahora : Nat) (p : Producto)
    (hfind : buscarPorCodigo sys.productos c = some p) :
    (registrar_ingreso sys c cantidad tipo usuario ahora).1
        = .ok (Movimiento.crear_movimiento ("ingreso_" ++ tipo) c cantidad usuario ahora)
    ∧ (registrar_ingreso sys c cantidad tipo usuario ahora).2.movimientos
        = sys.movimientos
            ++ [Movimiento.crear_movimiento ("ingreso_" ++ tipo) c cantidad usuario ahora]
    ∧ (buscarPorCodigo (registrar_ingreso sys c cantidad tipo usuario ahora).2.productos c).map
        Producto.stock_actual = some (p.stock_actual + cantidad) := by
  have hr : registrar_ingreso sys c cantidad tipo usuario ahora
      = (.ok (Movimiento.crear_movimiento ("ingreso_" ++ tipo) c cantidad usuario ahora),
         { sys with
           movimientos := sys.movimientos
             ++ [Movimiento.crear_movimiento ("ingreso_" ++ tipo) c cantidad usuario ahora],
           productos := reemplazarEn sys.productos c
             fun q => (q.actualizar_stock cantidad).agregar_movimiento
               (Movimiento.crear_movimiento ("ingreso_" ++ tipo) c cantidad usuario ahora) }) := by
    unfold registrar_ingreso
    rw [hfind]
  refine ⟨by simp only [hr], by simp only [hr], ?_⟩
  simp only [hr]
  simp [buscarPorCodigo_reemplazarEn, hfind, Producto.actualizar_stock,
    Producto.agregar_movimiento]

/-- Witness for the amended C3 at quantity 0. -/
theorem registrar_ingreso_sin_validacion_witness :
    (registrar_ingreso sysConA "A" 0 "ajuste" "Sistema" 6).1
      = .ok (Movimiento.crear_movimiento "ingreso_ajuste" "A" 0 "Sistema" 6) :=
  (registrar_ingreso_sin_validacion sysConA "A" 0 "ajuste" "Sistema" 6 prodA
    (by decide)).1

/-- C1 counterexample: the state reached by registering `A` and then recording
an inbound with quantity `-1` is reachable through the public operations alone,
yet product `A` then has stock `-1`, which is negative. -/
theorem stock_puede_ser_negativo_cex :
    Alcanzable sysStockNegativo
    ∧ (buscarPorCodigo sysStockNegativo.productos "A").map Producto.stock_actual
        = some (-1) := by
  constructor
  · exact Alcanzable.ingreso sysConA "A" (-1) "compra" "Sistema" 3
      (Alcanzable.registrar sistemaInicial "A" "Varilla" "Materiales" 2 provPrueba 5
        "nacional" datosNacionalLima Alcanzable.inicial)
  · decide

/-- C1 amended: along every sequence of register, inbound and outbound calls in
which each inbound quantity is nonnegative (outbound quantities stay
arbitrary), every registered product's stock is nonnegative. -/
theorem stock_no_negativo (s : SistemaInventario) (h : AlcanzableIngresosNoNeg s) :
    ∀ c p, buscarPorCodigo s.productos c = some p → 0 ≤ p.stock_actual := by
  induction h with
  | inicial =>
      intro c p hp
      simp [sistemaInicial, buscarPorCodigo] at hp
  | registrar s codigo nombre categoria stock_minimo proveedor costo tipoP datos _ ih =>
      intro c p hp
      unfold registrar_producto at hp
      split at hp
      · exact ih c p hp
      · split at hp
        · split at hp
          · exact ih c p hp
          · rename_i region hregion
            rcases buscarPorCodigo_append_cases s.productos
                [(codigo, Producto.nuevo codigo nombre categoria stock_minimo proveedor
                  costo (TipoProducto.nacional region))] c p hp with hcase | hcase
            · exact ih c p hcase
            · rw [buscarPorCodigo_singleton _ _ _ _ hcase]
              simp [Producto.nuevo]
        · split at hp
          · split at hp
            · exact ih c p hp
            · rename_i impuesto himpuesto
              rcases buscarPorCodigo_append_cases s.productos
                  [(codigo, Producto.nuevo codigo nombre categoria stock_minimo proveedor
                    costo (TipoProducto.importado impuesto))] c p hp with hcase | hcase
              · exact ih c p hcase
              · rw [buscarPorCodigo_singleton _ _ _ _ hcase]
                simp [Producto.nuevo]
          · exact ih c p hp
  | ingreso s codigo cantidad tipoM usuario ahora hcant _ ih =>
      intro c p hp
      unfold registrar_ingreso at hp
      split at hp
      · exact ih c p hp
      · have hp2 : buscarPorCodigo (reemplazarEn s.productos codigo
            (fun r => (r.actualizar_stock cantidad).agregar_movimiento
              (Movimiento.crear_movimiento ("ingreso_" ++ tipoM) codigo cantidad usuario
                ahora))) c = some p := hp
        rw [buscarPorCodigo_reemplazarEn] at hp2
        by_cases hc : c = codigo
        · rw [if_pos hc, hc] at hp2
          rcases Option.map_eq_some'.mp hp2 with ⟨r, hr, hpr⟩
          have h0 : 0 ≤ r.stock_actual := ih codigo r hr
          rw [← hpr]
          show 0 ≤ r.stock_actual + cantidad
          omega
        · rw [if_neg hc] at hp2
          exact ih c p hp2
  | salida s codigo cantidad tipoM usuario ahora _ ih =>
      intro c p hp
      unfold registrar_salida at hp
      split at hp
      · exact ih c p hp
      · rename_i producto hprod
        split at hp
        · exact ih c p hp
        · rename_i hnlt
          have hp2 : buscarPorCodigo (reemplazarEn s.productos codigo
              (fun r => (r.actualizar_stock (-cantidad)).agregar_movimiento
                (Movimiento.crear_movimiento ("salida_" ++ tipoM) codigo (-cantidad)
                  usuario ahora))) c = some p := hp
          rw [buscarPorCodigo_reemplazarEn] at hp2
          by_cases hc : c = codigo
          · rw [if_pos hc, hc] at hp2
            rcases Option.map_eq_some'.mp hp2 with ⟨r, hr, hpr⟩
            have hrp : r = producto := by
              rw [hprod] at hr
              exact (Option.some_inj.mp hr).symm
            rw [← hpr, hrp]
            show 0 ≤ producto.stock_actual + -cantidad
            omega
          · rw [if_neg hc] at hp2
            exact ih c p hp2

/-- Witness for the amended C1 at a concrete reachable state with stock 5. -/
theorem stock_no_negativo_witness : (0 : Int) ≤ prodA5.stock_actual :=
  stock_no_negativo sysConA5
    (AlcanzableIngresosNoNeg.ingreso sysConA "A" 5 "compra" "Sistema" 3 (by decide)
      (AlcanzableIngresosNoNeg.registrar sistemaInicial "A" "Varilla" "Materiales" 2
        provPrueba 5 "nacional" datosNacionalLima AlcanzableIngresosNoNeg.inicial))
    "A" prodA5 (by decide)

/-- C6: registering a fresh code with valid variant data stores a new product
under that code with stock 0 and returns it; registering a code already present
raises `CodigoDuplicado` and returns with the ledger exactly as it was before
the call. -/
theorem registrar_producto_correcto (sys : SistemaInventario)
    (codigo nombre categoria : String) (stock_minimo : Int) (proveedor : Proveedor)
    (costo_unitario : ℚ) (tipo_producto : String) (datos_extra : DatosExtra) :
    (buscarPorCodigo sys.productos codigo = none →
      (tipo_producto = "nacional" ∧ datos_extra.region_origen.isSome = true
        ∨ tipo_producto = "importado" ∧ datos_extra.impuesto.isSome = true) →
      ∃ producto,
        (registrar_producto sys codigo nombre categoria stock_minimo proveedor
            costo_unitario tipo_producto datos_extra).1 = .ok producto
        ∧ buscarPorCodigo (registrar_producto sys codigo nombre categoria stock_minimo
            proveedor costo_unitario tipo_producto datos_extra).2.productos codigo
            = some producto
        ∧ producto.stock_actual = 0)
    ∧ (∀ p, buscarPorCodigo sys.productos codigo = some p →
        registrar_producto sys codigo nombre categoria stock_minimo proveedor
            costo_unitario tipo_producto datos_extra
          = (.err (.codigoDuplicado
              ("Error: El codigo \x27" ++ codigo ++ "\x27 ya existe en el sistema")), sys)) := by
  constructor
  · intro hnone hvalid
    have hdup : (buscarPorCodigo sys.productos codigo).isSome = false := by
      rw [hnone]
      rfl
    rcases hvalid with ⟨htp, hreg⟩ | ⟨htp, himp⟩
    · rcases Option.isSome_iff_exists.mp hreg with ⟨region, hregion⟩
      have hr2 : registrar_producto sys codigo nombre categoria stock_minimo proveedor
          costo_unitario tipo_producto datos_extra
          = (.ok (Producto.nuevo codigo nombre categoria stock_minimo proveedor
              costo_unitario (.nacional region)),
             { sys with productos := sys.productos
                 ++ [(codigo, Producto.nuevo codigo nombre categoria stock_minimo proveedor
                     costo_unitario (.nacional region))] }) := by
        unfold registrar_producto
        rw [hdup]
        simp [htp, hregion]
      refine ⟨Producto.nuevo codigo nombre categoria stock_minimo proveedor costo_unitario
        (.nacional region), by rw [hr2], ?_, rfl⟩
      simp only [hr2]
      rw [buscarPorCodigo_append_ausente _ _ _ hnone]
      simp [buscarPorCodigo]
    · rcases Option.isSome_iff_exists.mp himp with ⟨impuesto, himpuesto⟩
      have hr2 : registrar_producto sys codigo nombre categoria stock_minimo proveedor
          costo_unitario tipo_producto datos_extra
          = (.ok (Producto.nuevo codigo nombre categoria stock_minimo proveedor
              costo_unitario (.importado impuesto)),
             { sys with productos := sys.productos
                 ++ [(codigo, Producto.nuevo codigo nombre categoria stock_minimo proveedor
                     costo_unitario (.importado impuesto))] }) := by
        unfold registrar_producto
        rw [hdup]
        simp [htp, himpuesto]
      refine ⟨Producto.nuevo codigo nombre categoria stock_minimo proveedor costo_unitario
        (.importado impuesto), by rw [hr2], ?_, rfl⟩
      simp only [hr2]
      rw [buscarPorCodigo_append_ausente _ _ _ hnone]
      simp [buscarPorCodigo]
  · intro p hp
    unfold registrar_producto
    rw [hp]
    simp

/-- Witness for C6: registering `A` on the empty ledger leaves it with stock 0,
and registering `A` again on `sysConA` fails leaving the ledger unchanged. -/
theorem registrar_producto_correcto_witness :
    (buscarPorCodigo sysConA.productos "A").map Producto.stock_actual = some 0
    ∧ registrar_producto sysConA "A" "Varilla" "Materiales" 2 provPrueba 5
        "nacional" datosNacionalLima
      = (.err (.codigoDuplicado "Error: El codigo \x27A\x27 ya existe en el sistema"),
         sysConA) := by
  constructor
  · obtain ⟨producto, _, h2, h3⟩ :=
      (registrar_producto_correcto sistemaInicial "A" "Varilla" "Materiales" 2 provPrueba 5
        "nacional" datosNacionalLima).1 (by decide) (Or.inl ⟨rfl, by decide⟩)
    show (buscarPorCodigo (registrar_producto sistemaInicial "A" "Varilla" "Materiales" 2
      provPrueba 5 "nacional" datosNacionalLima).2.productos "A").map
        Producto.stock_actual = some 0
    rw [h2]
    simp [h3]
  · exact (registrar_producto_correcto sysConA "A" "Varilla" "Materiales" 2 provPrueba 5
      "nacional" datosNacionalLima).2 prodA (by decide)

/-- C8: each valuation row is the tax-inclusive unit cost times the stock for
imported products and the plain unit cost times the stock for domestic ones,
and the accumulated grand total equals the sum of the per-product rows. -/
theorem calcular_valor_inventario_correcto (sys : SistemaInventario) :
    (calcular_valor_inventario sys).1
        = sys.productos.map (fun kv => (kv.2.nombre, valorSegunSpec kv.2))
    ∧ (calcular_valor_inventario sys).2
        = (((calcular_valor_inventario sys).1).map Prod.snd).sum := by
  have hfila : ∀ q : Producto, valorFila q = valorSegunSpec q := by
    intro q
    obtain ⟨c0, n0, cat0, sm0, pr0, cu0, sa0, mv0, tp0⟩ := q
    cases tp0 with
    | nacional r =>
        simp [valorFila, valorSegunSpec, Producto.costo_con_impuesto, mul_comm]
    | importado t =>
        simp [valorFila, valorSegunSpec, Producto.costo_con_impuesto, mul_comm]
  constructor
  · unfold calcular_valor_inventario
    simp [hfila]
  · unfold calcular_valor_inventario
    simp [foldl_suma, List.map_map, Function.comp_def]

/-- C9 counterexample: supplying the empty string as the product-code filter is
discarded by the Python truthiness test, so the whole log comes back even
though no movement in it has code `""`: the result is not the list of
movements satisfying the supplied filters. -/
theorem obtener_historial_codigo_vacio_cex :
    obtener_historial_movimientos sysConA5 (some "") none none
      ≠ historialSegunSpec sysConA5 (some "") none none := by
  decide

/-- C9 amended: provided a supplied product-code filter is a non-empty string,
the history returns exactly the movements satisfying all supplied filters with
AND semantics, inclusive at both time bounds, in original chronological order,
and each omitted filter passes every movement through; a supplied empty-string
code is instead treated as omitted. -/
theorem obtener_historial_filtra (sys : SistemaInventario)
    (codigo_producto : Option String) (fecha_inicio fecha_fin : Option Nat)
    (hnv : codigo_producto ≠ some "") :
    obtener_historial_movimientos sys codigo_producto fecha_inicio fecha_fin
      = historialSegunSpec sys codigo_producto fecha_inicio fecha_fin := by
  simp only [obtener_historial_movimientos, historialSegunSpec]
  cases codigo_producto with
  | none =>
      cases fecha_inicio <;> cases fecha_fin <;>
        simp [filtrar_filtrar, Bool.and_assoc, Bool.and_comm, Bool.and_left_comm]
  | some c =>
      have hc : ¬ c = "" := fun h => hnv (by rw [h])
      cases fecha_inicio <;> cases fecha_fin <;>
        simp [hc, filtrar_filtrar, Bool.and_assoc, Bool.and_comm, Bool.and_left_comm]

/-- Witness for the amended C9 with all three filters supplied. -/
theorem obtener_historial_filtra_witness :
    obtener_historial_movimientos sysConA5 (some "A") (some 0) (some 10)
      = historialSegunSpec sysConA5 (some "A") (some 0) (some 10) :=
  obtener_historial_filtra sysConA5 (some "A") (some 0) (some 10) (by decide)

end Inventario
